import Mathlib

/-!
Verification of the stream-processing pipeline tooling:
the static complexity scorer, the structural validator, the tier-violation
error parser, the profiling sampler's sleep policy, the trend/threshold
analyzer and the recommendation generator.

Conventions of the embedding:
* JSON values (the parsed pipeline definitions) are modelled by `Json`.
  Numbers are modelled as `Int`: the scorer only ever uses `int(value)` of a
  numeric field, so values are represented after truncation.  Object key
  lists are assumed duplicate-free, as produced by Python's `json` parser;
  lookup takes the first matching key.
* Python's `str()` rendering of parsed JSON data is modelled by `pyStr`.
  String escaping and the quote-style choice Python makes for strings that
  themselves contain quotes are not modelled; no pipeline under study puts
  quote characters inside string values.
* Fallible code paths are modelled by total functions returning the value
  the corresponding `except` branch produces, mirroring that the source
  never lets an exception escape these functions.
-/

/-- A parsed JSON value, as handed to the scorer and validator. -/
inductive Json where
  | null : Json
  | bool : Bool → Json
  | int : Int → Json
  | str : String → Json
  | arr : List Json → Json
  | obj : List (String × Json) → Json

/-- Single-quote character, used by Python's repr of strings and dict keys. -/
def sqch : String := "\x27"

mutual

/-- Python `str()` of a parsed-JSON value (dicts/lists/strings/ints/bools/None). -/
def pyStr : Json → String
  | .null => "None"
  | .bool b => if b then "True" else "False"
  | .int n => toString n
  | .str s => sqch ++ s ++ sqch
  | .arr xs => "[" ++ pyStrList xs ++ "]"
  | .obj kvs => "\x7b" ++ pyStrObj kvs ++ "\x7d"

/-- Comma-joined renderings of list elements. -/
def pyStrList : List Json → String
  | [] => ""
  | [x] => pyStr x
  | x :: xs => pyStr x ++ ", " ++ pyStrList xs

/-- Comma-joined `'key': value` renderings of dict entries. -/
def pyStrObj : List (String × Json) → String
  | [] => ""
  | [(k, v)] => sqch ++ k ++ sqch ++ ": " ++ pyStr v
  | (k, v) :: kvs => sqch ++ k ++ sqch ++ ": " ++ pyStr v ++ ", " ++ pyStrObj kvs

end

/-- Substring test: Python's `needle in haystack` on strings. -/
def strContains (hay needle : String) : Bool :=
  (List.range (hay.data.length + 1)).any (fun i => needle.data.isPrefixOf (hay.data.drop i))

/-- Python's `key in value` membership test: dict-key membership for dicts,
substring for strings, element equality for lists (our keys are strings, so
only string elements can match).  Other receivers raise `TypeError` in
Python; those cases are never reached by the code under study. -/
def pyHasKey (j : Json) (k : String) : Bool :=
  match j with
  | .obj kvs => kvs.any (fun p => p.1 == k)
  | .str s => strContains s k
  | .arr xs => xs.any (fun x => match x with | .str s => s == k | _ => false)
  | _ => false

/-- Python dict lookup `value[k]` / `value.get(k)` on a JSON object,
`none` when the receiver is not a dict (the code always guards with an
`in` test first). -/
def jlookup (j : Json) (k : String) : Option Json :=
  match j with
  | .obj kvs => kvs.lookup k
  | _ => none

/-- Model of `isinstance(value, (int, float))`, returning `int(value)`.
Python `bool` is a subclass of `int`: `int(True) = 1`, `int(False) = 0`. -/
def pyNumeric : Json → Option Int
  | .int n => some n
  | .bool b => some (if b then 1 else 0)
  | _ => none

/-- Python truthiness of a parsed-JSON value. -/
def pyTruthy : Json → Bool
  | .null => false
  | .bool b => b
  | .int n => n != 0
  | .str s => !s.isEmpty
  | .arr xs => !xs.isEmpty
  | .obj kvs => !kvs.isEmpty

/-- Python `len()` of a parsed-JSON collection value. -/
def pyLen : Json → Nat
  | .str s => s.length
  | .arr xs => xs.length
  | .obj kvs => kvs.length
  | _ => 0

/-- Python `f"{value}"` formatting: bare text for strings, `str()` rendering
otherwise. -/
def fmtPy (j : Json) : String :=
  match j with
  | .str s => s
  | _ => pyStr j

/-- Python `str.lower()` (characters are lowered pointwise). -/
def lowerStr (s : String) : String := String.mk (s.data.map Char.toLower)

example : pyStr (.obj [("$group", .obj [])]) = "\x7b\x27$group\x27: \x7b\x7d\x7d" := by rfl
example : strContains "\x7b\x27$match\x27: \x7b\x27note\x27: \x27$grouped\x27\x7d\x7d" "$group" = true := by decide
example : strContains "\x7b\x27$source\x27: \x7b\x7d\x7d" "$sort" = false := by decide

/-!
## Pipeline complexity scorer

Embedding of `analyze_processor_complexity_detailed` from
`tools/sp/atlas_api.py`.  The per-stage loop is expressed as per-stage
contribution functions summed over the stage list; all contributions are
additive, so this matches the accumulating loop of the source.
-/

/-- The expensive-operator tokens with their weights and factor descriptions,
in the order the source tests them: `$function`, `$window`, `$facet`,
`$lookup`, `$group`, `$sort`.  Each is detected by substring search over
`str(stage)`. -/
def opChecks : List (String × Int × String) :=
  [("$function", 40, "JavaScript function"),
   ("$window", 30, "Window processing"),
   ("$facet", 25, "Facet operation"),
   ("$lookup", 20, "Lookup/join operation"),
   ("$group", 15, "Grouping operation"),
   ("$sort", 10, "Sort operation")]

/-- Complexity points a stage earns from the expensive-operator substring
checks. -/
def stageOpScore (st : Json) : Int :=
  ((opChecks.filter (fun c => strContains (pyStr st) c.1)).map (fun c => c.2.1)).sum

/-- Factor strings the expensive-operator checks append for one stage. -/
def stageOpFactors (stageName : String) (st : Json) : List String :=
  (opChecks.filter (fun c => strContains (pyStr st) c.1)).map
    (fun c => s!"{stageName}: {c.2.2} (+{c.2.1} complexity)")

/-- The check `"kafka" in str(stage).lower()` contributes +15. -/
def kafkaScore (st : Json) : Int :=
  if strContains (lowerStr (pyStr st)) "kafka" then 15 else 0

/-- Factor string for the Kafka check on one stage. -/
def kafkaFactors (stageName : String) (st : Json) : List String :=
  if strContains (lowerStr (pyStr st)) "kafka" then
    [s!"{stageName}: Kafka integration (+15 complexity)"]
  else []

/-- One parallelism-field emission site: given the field's value, emit the
labelled `int(value)` when it is numeric and strictly greater than 1.
`int(True) = 1` is never `> 1`, so boolean values never contribute. -/
def parEmit (label : String) (v : Json) : List (String × Int) :=
  match pyNumeric v with
  | some n => if 1 < n then [(label, n)] else []
  | none => []

/-- Parallelism matches produced by one `(key, value)` item of a stage dict:
a direct numeric `parallelism` key (labelled with the stage's first key);
otherwise, for dict values, a `parallelism` field of the value (labelled
with the key) and a `parallelism` field nested in a dict-valued `into`
(labelled `key.into`).  The `elif` of the source makes the direct-numeric
case exclude the dict cases. -/
def itemParEntries (stageKeys : List String) (k : String) (v : Json) : List (String × Int) :=
  if k = "parallelism" ∧ (pyNumeric v).isSome then
    parEmit (stageKeys.headD "") v
  else
    match v with
    | .obj kvs =>
        (match kvs.lookup "parallelism" with
         | some pv => parEmit k pv
         | none => []) ++
        (match kvs.lookup "into" with
         | some (.obj ikvs) =>
             (match ikvs.lookup "parallelism" with
              | some ipv => parEmit (k ++ ".into") ipv
              | none => [])
         | _ => [])
    | _ => []

/-- All parallelism matches of a stage, in item order; non-dict stages are
skipped (`isinstance(stage, dict)` guard). -/
def stageParEntries (st : Json) : List (String × Int) :=
  match st with
  | .obj kvs => kvs.flatMap (fun p => itemParEntries (kvs.map Prod.fst) p.1 p.2)
  | _ => []

/-- Contribution of a stage to `total_parallelism`: `value - 1` per match. -/
def stageParContrib (st : Json) : Int :=
  ((stageParEntries st).map (fun p => p.2 - 1)).sum

/-- Contribution of a stage's parallelism matches to `complexity_score`:
`value * 5` per match. -/
def stageParScoreTotal (st : Json) : Int :=
  ((stageParEntries st).map (fun p => p.2 * 5)).sum

/-- The `parallelism_details` strings of one stage. -/
def stageParDetails (stageName : String) (st : Json) : List String :=
  (stageParEntries st).map
    (fun p => s!"{stageName} ({p.1}): parallelism={p.2} (contributes {p.2 - 1})")

/-- Stages containing a `$source` key plus stages containing a `$merge` key. -/
def connectionsCount (stages : List Json) : Int :=
  (stages.map (fun st =>
    (if pyHasKey st "$source" then (1 : Int) else 0) +
    (if pyHasKey st "$merge" then 1 else 0))).sum

/-- Pipeline-length factor: +20 above 8 stages, +10 above 5, +5 above 3. -/
def lengthFactor (n : Nat) : Int :=
  if 8 < n then 20 else if 5 < n then 10 else if 3 < n then 5 else 0

/-- Factor strings of the pipeline-length bonus. -/
def lengthFactorNotes (n : Nat) : List String :=
  if 8 < n then [s!"Pipeline length: {n} stages (+20 complexity)"]
  else if 5 < n then [s!"Pipeline length: {n} stages (+10 complexity)"]
  else if 3 < n then [s!"Pipeline length: {n} stages (+5 complexity)"]
  else []

/-- Connection-count factor: +15 above 4 connections, +10 above 2. -/
def connFactor (cc : Int) : Int :=
  if 4 < cc then 15 else if 2 < cc then 10 else 0

/-- Factor strings of the connection-count bonus. -/
def connFactorNotes (cc : Int) : List String :=
  if 4 < cc then [s!"Connection count: {cc} (+15 complexity)"]
  else if 2 < cc then [s!"Connection count: {cc} (+10 complexity)"]
  else []

/-- Model of `complexity_score`: per-stage operator, parallelism and Kafka points,
plus the pipeline-length and connection-count factors. -/
def complexityScore (stages : List Json) : Int :=
  (stages.map (fun st => stageOpScore st + stageParScoreTotal st + kafkaScore st)).sum
    + lengthFactor stages.length + connFactor (connectionsCount stages)

/-- Model of `total_parallelism`: sum of the per-stage parallelism contributions. -/
def totalParallelism (stages : List Json) : Int :=
  (stages.map stageParContrib).sum

/-- Model of `complexity_factors`, in append order: per-stage operator factors then
Kafka factor, then the length factor, then the connection factor. -/
def complexityFactors (stages : List Json) : List String :=
  (stages.enum.flatMap (fun p =>
      stageOpFactors s!"Stage {p.1 + 1}" p.2 ++ kafkaFactors s!"Stage {p.1 + 1}" p.2))
    ++ lengthFactorNotes stages.length ++ connFactorNotes (connectionsCount stages)

/-- Model of `parallelism_details`, in stage order. -/
def parallelismDetails (stages : List Json) : List String :=
  stages.enum.flatMap (fun p => stageParDetails s!"Stage {p.1 + 1}" p.2)

/-- Complexity-score tier bands, highest threshold first, with the reason
string of each band. -/
def tierFromComplexity (score : Int) : String × String :=
  if score ≥ 80 then ("SP50", "Very complex pipeline (80+ complexity points)")
  else if score ≥ 50 then ("SP30", "Complex pipeline (50+ complexity points)")
  else if score ≥ 25 then ("SP10", "Moderate complexity (25+ complexity points)")
  else if score ≥ 10 then ("SP5", "Simple pipeline (10+ complexity points)")
  else ("SP2", "Very simple pipeline (<10 complexity points)")

/-- Parallelism tier minimums: `>48`, `>8`, `>1`, `==1`, else. -/
def tierFromParallelism (p : Int) : String :=
  if p > 48 then "SP50"
  else if p > 8 then "SP30"
  else if p > 1 then "SP10"
  else if p = 1 then "SP5"
  else "SP2"

/-- The ordered five-tier table. -/
def tier_hierarchy : List String := ["SP2", "SP5", "SP10", "SP30", "SP50"]

/-- Tier chosen by the complexity score alone. -/
def complexityTier (stages : List Json) : String :=
  (tierFromComplexity (complexityScore stages)).1

/-- Minimum tier required by the parallelism total alone. -/
def parallelismTier (stages : List Json) : String :=
  tierFromParallelism (totalParallelism stages)

/-- Model of `tier_hierarchy[max(complexity_index, parallelism_index)]`; the `.index`
calls cannot fail since both tiers come from the table (the `getD` default
is never used). -/
def recommendedTier (stages : List Json) : String :=
  tier_hierarchy.getD
    (max (tier_hierarchy.indexOf (complexityTier stages))
         (tier_hierarchy.indexOf (parallelismTier stages))) "SP2"

/-- The primary reasoning line: complexity-driven on `complexity_index ≥
parallelism_index`, parallelism-driven otherwise. -/
def primaryReason (stages : List Json) : String :=
  if tier_hierarchy.indexOf (complexityTier stages)
       ≥ tier_hierarchy.indexOf (parallelismTier stages) then
    s!"Complexity-driven: {(tierFromComplexity (complexityScore stages)).2}"
  else
    s!"Parallelism-driven: {parallelismTier stages} required for {totalParallelism stages} total parallelism"

/-- The secondary reasoning line. -/
def secondaryReason (stages : List Json) : String :=
  if tier_hierarchy.indexOf (complexityTier stages)
       ≥ tier_hierarchy.indexOf (parallelismTier stages) then
    s!"Parallelism requirement: {parallelismTier stages} (total parallelism: {totalParallelism stages})"
  else
    s!"Complexity score: {complexityScore stages} (suggests {complexityTier stages})"

/-- The `analysis` and `reasoning` payload of a successful scoring run. -/
structure ScoreAnalysis where
  recommended_tier : String
  total_parallelism : Int
  complexity_score : Int
  pipeline_stages : Nat
  connections_count : Int
  complexity_tier : String
  parallelism_tier : String
  parallelism_details : List String
  complexity_factors : List String
  primary_reason : String
  secondary_reason : String
deriving DecidableEq

/-- Scoring of a parsed stage list (the body of the `try` block after the
pipeline has been extracted). -/
def analyzePipeline (stages : List Json) : ScoreAnalysis :=
  { recommended_tier := recommendedTier stages
    total_parallelism := totalParallelism stages
    complexity_score := complexityScore stages
    pipeline_stages := stages.length
    connections_count := connectionsCount stages
    complexity_tier := complexityTier stages
    parallelism_tier := parallelismTier stages
    parallelism_details := parallelismDetails stages
    complexity_factors := complexityFactors stages
    primary_reason := primaryReason stages
    secondary_reason := secondaryReason stages }

/-- Outcome of the excluded pipeline-loading collaborator: the definition
file or API response, a not-found miss, or a load/parse failure whose
exception message lands in the scorer's catch-all `except`. -/
inductive LoadOutcome where
  | notFound : LoadOutcome
  | loadError : String → LoadOutcome
  | loaded : Json → LoadOutcome

/-- Result of `analyze_processor_complexity_detailed`: either the fallback
shape `{recommended_tier, analysis: {error}, reasoning}` or a full analysis. -/
inductive AnalysisResult where
  | fallback : String → String → String → AnalysisResult
  | ok : ScoreAnalysis → AnalysisResult

/-- The recommended tier of either result shape. -/
def AnalysisResult.tier : AnalysisResult → String
  | .fallback t _ _ => t
  | .ok a => a.recommended_tier

/-- Model of `analyze_processor_complexity_detailed`: falsy or missing processor data
yields the SP10 fallback; a load/parse exception yields the SP10 error
fallback; otherwise the pipeline field (default `[]`) is scored.  A
non-list `pipeline` value and a non-dict processor document raise inside
the `try` in the source and are returned through the same `except` branch;
their exception message texts are not modelled. -/
def analyze_processor_complexity_detailed : LoadOutcome → AnalysisResult
  | .notFound =>
      .fallback "SP10" "Processor not found locally or in Atlas"
        "Default fallback for missing processor"
  | .loadError e => .fallback "SP10" e "Error occurred during analysis, using default tier"
  | .loaded d =>
      if pyTruthy d = false then
        .fallback "SP10" "Processor not found locally or in Atlas"
          "Default fallback for missing processor"
      else
        match d with
        | .obj kvs =>
            match (kvs.lookup "pipeline").getD (.arr []) with
            | .arr stages => .ok (analyzePipeline stages)
            | _ =>
                .fallback "SP10" "exception during pipeline traversal"
                  "Error occurred during analysis, using default tier"
        | _ =>
            .fallback "SP10" "exception during pipeline traversal"
              "Error occurred during analysis, using default tier"

/-- The end-to-end scenario pipeline: one source, one grouping stage, one
sort stage, one merge-output stage with `parallelism: 9` inside `into`. -/
def scenarioPipeline : List Json :=
  [.obj [("$source", .obj [("connectionName", .str "sample_stream_solar")])],
   .obj [("$group", .obj [])],
   .obj [("$sort", .obj [])],
   .obj [("$merge", .obj [("into", .obj [("parallelism", .int 9)])])]]

example : complexityScore scenarioPipeline = 75 := by decide
example : totalParallelism scenarioPipeline = 8 := by decide
example : connectionsCount scenarioPipeline = 2 := by decide
example : complexityTier scenarioPipeline = "SP30" := by decide
example : parallelismTier scenarioPipeline = "SP10" := by decide
example : recommendedTier scenarioPipeline = "SP30" := by decide

/-!
## Tier-violation error parser

Embedding of `_parse_tier_validation_error`.  The two regular expressions
are fixed literals followed by `\d+`; `re.search` is modelled by a scan
over every start position, succeeding at the first position where the
literal matches and at least one digit follows.
-/

/-- The literal part of `r"Minimum tier for this workload: (SP\d+)"`. -/
def minTierPat : List Char := "Minimum tier for this workload: SP".data

/-- The literal part of `r"Requested: (\d+)"`. -/
def requestedPat : List Char := "Requested: ".data

/-- Decimal digits to a number (`int` of a `\d+` match). -/
def digitsToNat (ds : List Char) : Nat :=
  ds.foldl (fun a c => a * 10 + (c.toNat - 48)) 0

/-- Model of `re.search` for a fixed literal followed by `\d+`: the digits of the
first match, scanning start positions left to right. -/
def scanLitDigits (pat : List Char) : List Char → Option (List Char)
  | [] => none
  | c :: tl =>
      if pat.isPrefixOf (c :: tl) then
        if (((c :: tl).drop pat.length).takeWhile Char.isDigit).isEmpty then
          scanLitDigits pat tl
        else some (((c :: tl).drop pat.length).takeWhile Char.isDigit)
      else scanLitDigits pat tl

/-- Model of `_parse_tier_validation_error`: the minimum-tier phrase wins; otherwise
the requested-parallelism number is mapped through fixed bands; otherwise no
suggestion.  The `try/except` of the source makes the function total. -/
def _parse_tier_validation_error (error_text : String) : Option String :=
  match scanLitDigits minTierPat error_text.data with
  | some ds => some ("SP" ++ String.mk ds)
  | none =>
      match scanLitDigits requestedPat error_text.data with
      | some ds =>
          let requested : Nat := digitsToNat ds
          if requested > 8 then some "SP50"
          else if requested > 4 then some "SP30"
          else if requested > 2 then some "SP10"
          else some "SP5"
      | none => none

example : _parse_tier_validation_error "Minimum tier for this workload: SP30 or larger"
    = some "SP30" := by decide
example : _parse_tier_validation_error "Requested: 9 exceeds limit" = some "SP50" := by decide
example : _parse_tier_validation_error "nothing to see" = none := by decide

/-!
## Pipeline structural validator

Embedding of `validate_processor_file` from `tests/test_runner.py` (the
post-parse checks; file loading is the excluded collaborator, so the
function takes the parsed processor document and the known connection
names) and of the strict connection assertion
`ProcessorValidationTests.test_source_connections_exist` from
`tests/test_processors.py` (modelled as the boolean the assertions decide:
`true` iff no assertion fails).
-/

/-- Result shape of `validate_processor_file`. -/
structure ValidationResult where
  valid : Bool
  errors : List String
  warnings : List String
deriving DecidableEq

/-- Python `conn not in connections` for a JSON connection value against a
list of known names: only string values can match a name. -/
def jsonInStrList (j : Json) (l : List String) : Bool :=
  match j with
  | .str s => l.contains s
  | _ => false

/-- Warning for an unknown `$source` connection of one stage. -/
def sourceConnWarning (connections : List String) (st : Json) : List String :=
  match jlookup st "$source" with
  | some src =>
      match jlookup src "connectionName" with
      | some conn =>
          if jsonInStrList conn connections then []
          else [s!"Unknown source connection: {fmtPy conn}"]
      | none => []
  | none => []

/-- Warning for an unknown `$merge` `into` connection of one stage. -/
def mergeConnWarning (connections : List String) (st : Json) : List String :=
  match jlookup st "$merge" with
  | some mg =>
      match jlookup mg "into" with
      | some into =>
          match into with
          | .obj _ =>
              match jlookup into "connectionName" with
              | some conn =>
                  if jsonInStrList conn connections then []
                  else [s!"Unknown merge connection: {fmtPy conn}"]
              | none => []
          | _ => []
      | none => []
  | none => []

/-- Warning for an unknown `$emit` connection of one stage. -/
def emitConnWarning (connections : List String) (st : Json) : List String :=
  match jlookup st "$emit" with
  | some emit =>
      match emit with
      | .obj _ =>
          match jlookup emit "connectionName" with
          | some conn =>
              if jsonInStrList conn connections then []
              else [s!"Unknown emit connection: {fmtPy conn}"]
          | none => []
      | _ => []
  | none => []

/-- The stage list the validator iterates over: the `pipeline` field when it
is a list, `[]` otherwise (`processor.get("pipeline", [])` with a
non-iterable value raises downstream; list-shaped stage lists are the only
ones the claims exercise). -/
def pipelineStages (processor : List (String × Json)) : List Json :=
  match processor.lookup "pipeline" with
  | some (.arr l) => l
  | _ => []

/-- Hard errors of `validate_processor_file`: required field, list shape,
non-emptiness, first stage is `$source`.  Each appended error also sets
`valid = False` in the source. -/
def structureErrors (processor : List (String × Json)) : List String :=
  (if (processor.lookup "pipeline").isNone then
      ["Missing required \x27pipeline\x27 field"] else []) ++
  (match (processor.lookup "pipeline").getD (.arr []) with
    | .arr _ => []
    | _ => ["\x27pipeline\x27 must be a list"]) ++
  (if pyLen ((processor.lookup "pipeline").getD (.arr [])) = 0 then
      ["\x27pipeline\x27 cannot be empty"] else []) ++
  (match pipelineStages processor with
    | st :: _ =>
        if pyHasKey st "$source" then [] else ["First pipeline stage must be \x27$source\x27"]
    | [] => [])

/-- Warning when no stage carries a `$merge` or `$emit` key. -/
def outputWarning (stages : List Json) : List String :=
  if stages.any (fun st => pyHasKey st "$merge" || pyHasKey st "$emit") then []
  else ["No output stage found ($merge, $emit)"]

/-- Per-stage unknown-connection warnings, in stage order. -/
def connectionWarnings (connections : List String) (stages : List Json) : List String :=
  stages.flatMap (fun st =>
    sourceConnWarning connections st ++ mergeConnWarning connections st
      ++ emitConnWarning connections st)

/-- Warning when the declared processor name does not match the filename. -/
def nameWarning (filename : String) (processor : List (String × Json)) : List String :=
  match processor.lookup "name" with
  | some (.str nm) =>
      if nm = filename then []
      else [s!"Processor name \x27{nm}\x27 doesn\x27t match filename \x27{filename}\x27"]
  | some other =>
      [s!"Processor name \x27{fmtPy other}\x27 doesn\x27t match filename \x27{filename}\x27"]
  | none => []

/-- Model of `validate_processor_file`: required-field, list-shape, non-emptiness and
first-stage checks populate `errors` (each also clears `valid`); missing
output stage, unknown connection references and name-mismatch checks only
populate `warnings`.  Connection scanning is modelled for dict stages; a
non-dict stage raises in the source and lands in its catch-all `except`,
which no claim exercises. -/
def validate_processor_file (filename : String) (processor : List (String × Json))
    (connections : List String) : ValidationResult :=
  { valid := (structureErrors processor).isEmpty
    errors := structureErrors processor
    warnings := outputWarning (pipelineStages processor)
      ++ connectionWarnings connections (pipelineStages processor)
      ++ nameWarning filename processor }

/-- Model of `test_source_connections_exist` of the strict test-suite validator:
`true` iff every `connectionName` of a `$source` stage is a known
connection (each unknown one is an `assertIn` failure). -/
def test_source_connections_exist (processor : List (String × Json))
    (valid_connections : List String) : Bool :=
  (pipelineStages processor).all (fun st =>
    match jlookup st "$source" with
    | some src =>
        match jlookup src "connectionName" with
        | some conn => jsonInStrList conn valid_connections
        | none => true
    | none => true)

/-- A source stage referencing connection `X`. -/
def unknownSourceStage : Json := .obj [("$source", .obj [("connectionName", .str "X")])]

/-- A merge stage writing into known connection `Y`. -/
def knownMergeStage : Json :=
  .obj [("$merge", .obj [("into", .obj [("connectionName", .str "Y"),
                                        ("db", .str "d"), ("coll", .str "c")])])]

/-- A processor referencing source connection `X` and merging into known
connection `Y`. -/
def unknownConnProcessor : List (String × Json) :=
  [("pipeline", .arr [unknownSourceStage, knownMergeStage])]

example : validate_processor_file "proc" unknownConnProcessor ["Y"]
    = { valid := true, errors := [], warnings := ["Unknown source connection: X"] } := by decide
example : test_source_connections_exist unknownConnProcessor ["Y"] = false := by decide

/-!
## Profiling sampler sleep policy

The sleep decisions of `profile_processors` (fixed duration) and
`profile_processors_continuous`, as functions of the quantities the source
reads at the end of a tick.  Real time is external: `duration`, `elapsed`
and `interval` are inputs.
-/

/-- End-of-tick sleep of `profile_processors`: with `remaining = duration -
elapsed`, sleep a full interval while more than one interval remains, the
positive remainder otherwise, nothing when the run is over. -/
def profileTickSleep (duration elapsed interval : ℚ) : ℚ :=
  if duration - elapsed > interval then interval
  else if duration - elapsed > 0 then duration - elapsed
  else 0

/-- End-of-tick sleep of `profile_processors_continuous`: always the full
interval. -/
def continuousTickSleep (interval : ℚ) : ℚ := interval

/-- Modelled from the spec: the claimed sleep policy "interval minus elapsed
processing time for that tick, floored at zero" (for comparison with the
code's sleep functions; no such computation exists in the source). -/
def specClaimedTickSleep (interval processing : ℚ) : ℚ := max 0 (interval - processing)

/-!
## Trend & threshold analyzer and recommendation generator

Embedding of `_calculate_trend`, `_calculate_processor_stats` (with its
inner `safe_stats`), `_generate_recommendations` and the per-processor part
of `_analyze_profile_data`.  Metric values are modelled as rationals.
-/

/-- Model of `_calculate_trend`: compare first-half and second-half averages; the
relative change is defined as 0 when the first-half average is not
positive. -/
def _calculate_trend (values : List ℚ) : String :=
  if values.length < 2 then "insufficient_data"
  else
    let first_half := values.take (values.length / 2)
    let second_half := values.drop (values.length / 2)
    if first_half.isEmpty || second_half.isEmpty then "stable"
    else
      let first_avg := first_half.sum / first_half.length
      let second_avg := second_half.sum / second_half.length
      let change_pct := if first_avg > 0 then (second_avg - first_avg) / first_avg * 100 else 0
      if |change_pct| < 5 then "stable"
      else if change_pct > 5 then "increasing"
      else "decreasing"

example : _calculate_trend [10, 10, 10, 10] = "stable" := by norm_num [_calculate_trend]
example : _calculate_trend [10, 20, 40, 80] = "increasing" := by norm_num [_calculate_trend]
example : _calculate_trend [10] = "insufficient_data" := by norm_num [_calculate_trend]

/-- One metric's aggregate block `{min, max, avg, trend}`. -/
structure MetricStats where
  minV : ℚ
  maxV : ℚ
  avgV : ℚ
  trend : String
deriving DecidableEq

/-- Minimum of a non-empty list (Python `min`; the all-zero guard of
`safe_stats` means the empty case is never reached). -/
def listMin : List ℚ → ℚ
  | [] => 0
  | x :: xs => xs.foldl min x

/-- Maximum of a non-empty list (Python `max`). -/
def listMax : List ℚ → ℚ
  | [] => 0
  | x :: xs => xs.foldl max x

/-- Model of `safe_stats`: empty or all-zero series report zero aggregates and a
"stable" trend; otherwise min/max/avg and the trend classification. -/
def safe_stats (values : List ℚ) : MetricStats :=
  if values.isEmpty || values.all (fun v => v = 0) then
    { minV := 0, maxV := 0, avgV := 0, trend := "stable" }
  else
    { minV := listMin values, maxV := listMax values,
      avgV := values.sum / values.length, trend := _calculate_trend values }

/-- Advisory strings of `_generate_recommendations`, in rule order. -/
def memLeakMsg : String := "Memory usage is increasing - monitor for potential memory leaks"

/-- Memory upsizing advisory. -/
def memUpsizeMsg : String :=
  "High memory usage detected - consider increasing tier or optimizing processor"

/-- Memory right-sizing advisory. -/
def memRightSizeMsg : String := "Low memory usage - processor may be over-provisioned"

/-- Latency degradation advisory. -/
def latencyDegradeMsg : String := "Latency is increasing - check for performance degradation"

/-- High p99 latency advisory. -/
def highLatencyMsg : String := "High average latency - consider tier upgrade or optimization"

/-- Throughput bottleneck advisory. -/
def throughputDropMsg : String := "Throughput is decreasing - investigate potential bottlenecks"

/-- Low throughput advisory. -/
def lowThroughputMsg : String := "Low throughput detected - verify data source and processing logic"

/-- Healthy advisory. -/
def healthyMsg : String := "Processor performance appears healthy"

/-- The memory `if/elif` chain: leak monitoring, else upsizing, else
right-sizing. -/
def memoryRecs (memory : MetricStats) : List String :=
  if memory.trend = "increasing" then [memLeakMsg]
  else if memory.maxV > 1000 then [memUpsizeMsg]
  else if memory.avgV < 100 then [memRightSizeMsg]
  else []

/-- The latency `if/elif` chain: degradation, else high p99. -/
def latencyRecs (latency : MetricStats) : List String :=
  if latency.trend = "increasing" then [latencyDegradeMsg]
  else if latency.avgV > 50 then [highLatencyMsg]
  else []

/-- The throughput `if/elif` chain: bottleneck, else low throughput. -/
def throughputRecs (throughput : MetricStats) : List String :=
  if throughput.trend = "decreasing" then [throughputDropMsg]
  else if throughput.avgV < 1 then [lowThroughputMsg]
  else []

/-- Model of `_generate_recommendations`: the three `if/elif` chains appended in
order — memory, latency, throughput — then the healthy fallback when
nothing fired. -/
def _generate_recommendations (memory latency throughput : MetricStats) : List String :=
  if (memoryRecs memory ++ latencyRecs latency ++ throughputRecs throughput).isEmpty then
    [healthyMsg]
  else memoryRecs memory ++ latencyRecs latency ++ throughputRecs throughput

/-- The metric fields of one per-processor, per-tick sample that the
end-of-run analysis reads (the other recorded fields are never used by
`_calculate_processor_stats`). -/
structure ProcMetrics where
  memory_mb : ℚ
  latency_p50_us : ℚ
  latency_p99_us : ℚ
  throughput_per_sec : ℚ
deriving DecidableEq

/-- One per-processor entry of a tick: a successful sample or an error
marker (`{"name": ..., "error": ...}`). -/
inductive ProcEntry where
  | ok : String → ProcMetrics → ProcEntry
  | err : String → String → ProcEntry
deriving DecidableEq

/-- Per-processor statistics block of the final analysis. -/
structure ProcStats where
  memory_mb : MetricStats
  latency_p50_ms : MetricStats
  latency_p99_ms : MetricStats
  throughput_per_sec : MetricStats
  samples : Nat
  recommendations : List String
deriving DecidableEq

/-- Model of `_calculate_processor_stats`: per-metric `safe_stats` (latencies
converted from µs to ms) plus the generated recommendations. -/
def _calculate_processor_stats (proc_data : List ProcMetrics) : ProcStats :=
  let memory := safe_stats (proc_data.map (fun p => p.memory_mb))
  let p50 := safe_stats (proc_data.map (fun p => p.latency_p50_us / 1000))
  let p99 := safe_stats (proc_data.map (fun p => p.latency_p99_us / 1000))
  let thr := safe_stats (proc_data.map (fun p => p.throughput_per_sec))
  { memory_mb := memory, latency_p50_ms := p50, latency_p99_ms := p99,
    throughput_per_sec := thr, samples := proc_data.length,
    recommendations := _generate_recommendations memory p99 thr }

/-- Model of `next((p for p in sample["processors"] if p["name"] == name and "error"
not in p), None)`: the first error-free entry of a tick with the given
name. -/
def tickFind (tick : List ProcEntry) (name : String) : Option ProcMetrics :=
  tick.findSome? (fun e =>
    match e with
    | .ok n m => if n = name then some m else none
    | .err _ _ => none)

/-- The names analysed at run end: names of the error-free entries of the
first tick (`samples[0]["processors"]`). -/
def firstTickOkNames (samples : List (List ProcEntry)) : List String :=
  match samples with
  | [] => []
  | first :: _ => first.filterMap (fun e =>
      match e with
      | .ok n _ => some n
      | .err _ _ => none)

/-- The per-processor portion of `_analyze_profile_data`: one statistics
entry per error-free first-tick name whose collected error-free samples are
non-empty. -/
def _analyze_profile_data_processors (samples : List (List ProcEntry)) :
    List (String × ProcStats) :=
  (firstTickOkNames samples).filterMap (fun name =>
    if (samples.filterMap (fun tick => tickFind tick name)).isEmpty then none
    else some (name,
      _calculate_processor_stats (samples.filterMap (fun tick => tickFind tick name))))

example :
    (_analyze_profile_data_processors
      [[.err "p" "boom"], [.ok "p" ⟨10, 10, 10, 10⟩], [.ok "p" ⟨10, 10, 10, 10⟩]]) = [] := by
  decide
example :
    (_analyze_profile_data_processors [[.ok "p" ⟨10, 10, 10, 10⟩]]).map Prod.fst = ["p"] := by
  decide

/-- The end-to-end fallback sample metrics used by the concrete theorems. -/
def sampleMetrics : ProcMetrics := { memory_mb := 10, latency_p50_us := 10,
                                     latency_p99_us := 10, throughput_per_sec := 10 }

/-- A run whose first tick failed for `p` and whose later ticks succeeded. -/
def errFirstRun : List (List ProcEntry) :=
  [[.err "p" "boom"], [.ok "p" sampleMetrics], [.ok "p" sampleMetrics]]

/-- A stage whose serialized form contains `$group` only inside a
configuration string value; the stage's only operator key is `$match`. -/
def matchWithGroupText : Json := .obj [("$match", .obj [("note", .str "$group stuff")])]

/-- Statistics with rising memory trend and max memory above the 1000 MB
ceiling (both memory advisories' conditions hold). -/
def memIncreasingHigh : MetricStats := { minV := 100, maxV := 2000, avgV := 500,
                                         trend := "increasing" }

/-- Latency statistics firing no latency rule. -/
def benignLatency : MetricStats := { minV := 0, maxV := 0, avgV := 0, trend := "stable" }

/-- Throughput statistics firing no throughput rule. -/
def benignThroughput : MetricStats := { minV := 5, maxV := 5, avgV := 5, trend := "stable" }

/-- Memory statistics firing no memory rule. -/
def benignMemory : MetricStats := { minV := 200, maxV := 200, avgV := 200, trend := "stable" }

/-!
## Supporting lemmas

Positivity facts about the scorer: every parallelism match has value at
least 2, so any positive parallelism contribution forces at least 10
complexity points, and every score component is non-negative.
-/

theorem parEmit_two_le {label : String} {v : Json} {p : String × Int}
    (hp : p ∈ parEmit label v) : 2 ≤ p.2 := by
  unfold parEmit at hp
  split at hp
  next n =>
    split at hp
    next h1 =>
      simp only [List.mem_singleton] at hp
      subst hp
      omega
    next h1 => simp at hp
  next => simp at hp

theorem itemParEntries_two_le {ks : List String} {k : String} {v : Json} {p : String × Int}
    (hp : p ∈ itemParEntries ks k v) : 2 ≤ p.2 := by
  unfold itemParEntries at hp
  split at hp
  · exact parEmit_two_le hp
  · cases v with
    | obj kvs =>
        rcases List.mem_append.mp hp with h | h
        · split at h
          · exact parEmit_two_le h
          · simp at h
        · split at h
          · split at h
            · exact parEmit_two_le h
            · simp at h
          · simp at h
    | null => simp at hp
    | bool b => simp at hp
    | int n => simp at hp
    | str s => simp at hp
    | arr xs => simp at hp

theorem stageParEntries_two_le {st : Json} {p : String × Int}
    (hp : p ∈ stageParEntries st) : 2 ≤ p.2 := by
  unfold stageParEntries at hp
  cases st with
  | obj kvs =>
      rcases List.mem_flatMap.mp hp with ⟨q, _, hq⟩
      exact itemParEntries_two_le hq
  | null => simp at hp
  | bool b => simp at hp
  | int n => simp at hp
  | str s => simp at hp
  | arr xs => simp at hp

theorem stageParContrib_nonneg (st : Json) : 0 ≤ stageParContrib st := by
  refine List.sum_nonneg ?_
  intro x hx
  rcases List.mem_map.mp hx with ⟨q, hq, rfl⟩
  have := stageParEntries_two_le hq
  omega

theorem stageParScoreTotal_nonneg (st : Json) : 0 ≤ stageParScoreTotal st := by
  refine List.sum_nonneg ?_
  intro x hx
  rcases List.mem_map.mp hx with ⟨q, hq, rfl⟩
  have := stageParEntries_two_le hq
  omega

theorem stageOpScore_nonneg (st : Json) : 0 ≤ stageOpScore st := by
  refine List.sum_nonneg ?_
  intro x hx
  rcases List.mem_map.mp hx with ⟨c, hc, rfl⟩
  have hc' : c ∈ opChecks := (List.mem_filter.mp hc).1
  fin_cases hc' <;> norm_num

theorem kafkaScore_nonneg (st : Json) : 0 ≤ kafkaScore st := by
  unfold kafkaScore
  split <;> norm_num

theorem lengthFactor_nonneg (n : Nat) : 0 ≤ lengthFactor n := by
  unfold lengthFactor
  split_ifs <;> norm_num

theorem connFactor_nonneg (cc : Int) : 0 ≤ connFactor cc := by
  unfold connFactor
  split_ifs <;> norm_num

theorem exists_pos_of_sum_pos {l : List Int} (hn : ∀ x ∈ l, 0 ≤ x) (hs : 0 < l.sum) :
    ∃ x ∈ l, 0 < x := by
  induction l with
  | nil => simp at hs
  | cons a t ih =>
      by_cases ha : 0 < a
      · exact ⟨a, List.mem_cons_self a t, ha⟩
      · have ha' : a = 0 :=
          le_antisymm (not_lt.mp ha) (hn a (List.mem_cons_self a t))
        rw [List.sum_cons, ha', zero_add] at hs
        obtain ⟨x, hx, hxp⟩ := ih (fun x hx => hn x (List.mem_cons_of_mem a hx)) hs
        exact ⟨x, List.mem_cons_of_mem a hx, hxp⟩

theorem parScore_ten_of_contrib_pos {st : Json} (h : 0 < stageParContrib st) :
    10 ≤ stageParScoreTotal st := by
  unfold stageParContrib at h
  obtain ⟨x, hx, hxp⟩ := exists_pos_of_sum_pos (fun x hx => by
      rcases List.mem_map.mp hx with ⟨q, hq, rfl⟩
      have := stageParEntries_two_le hq
      omega) h
  rcases List.mem_map.mp hx with ⟨q, hq, rfl⟩
  unfold stageParScoreTotal
  have hmem : q.2 * 5 ∈ (stageParEntries st).map (fun p => p.2 * 5) :=
    List.mem_map.mpr ⟨q, hq, rfl⟩
  have hnn : ∀ x ∈ (stageParEntries st).map (fun p => p.2 * 5), 0 ≤ x := by
    intro x hx'
    rcases List.mem_map.mp hx' with ⟨r, hr, rfl⟩
    have := stageParEntries_two_le hr
    omega
  have hle := List.single_le_sum hnn _ hmem
  have h2 := stageParEntries_two_le hq
  omega

theorem totalParallelism_nonneg (stages : List Json) : 0 ≤ totalParallelism stages := by
  refine List.sum_nonneg ?_
  intro x hx
  rcases List.mem_map.mp hx with ⟨st, _, rfl⟩
  exact stageParContrib_nonneg st

theorem complexityScore_ge_ten_of_totalPar_pos {stages : List Json}
    (h : 0 < totalParallelism stages) : 10 ≤ complexityScore stages := by
  unfold totalParallelism at h
  obtain ⟨x, hx, hxp⟩ := exists_pos_of_sum_pos (fun x hx => by
      rcases List.mem_map.mp hx with ⟨st, _, rfl⟩
      exact stageParContrib_nonneg st) h
  rcases List.mem_map.mp hx with ⟨st, hst, rfl⟩
  have h10 := parScore_ten_of_contrib_pos hxp
  unfold complexityScore
  have hmem : stageOpScore st + stageParScoreTotal st + kafkaScore st ∈
      stages.map (fun s => stageOpScore s + stageParScoreTotal s + kafkaScore s) :=
    List.mem_map.mpr ⟨st, hst, rfl⟩
  have hnn : ∀ x ∈ stages.map (fun s => stageOpScore s + stageParScoreTotal s + kafkaScore s),
      0 ≤ x := by
    intro x hx'
    rcases List.mem_map.mp hx' with ⟨s, _, rfl⟩
    have := stageOpScore_nonneg s
    have := kafkaScore_nonneg s
    have := stageParScoreTotal_nonneg s
    omega
  have hle := List.single_le_sum hnn _ hmem
  have hop := stageOpScore_nonneg st
  have hk := kafkaScore_nonneg st
  have hlf := lengthFactor_nonneg stages.length
  have hcf := connFactor_nonneg (connectionsCount stages)
  omega

theorem tierFromComplexity_of_lt_ten {s : Int} (h : s < 10) :
    tierFromComplexity s = ("SP2", "Very simple pipeline (<10 complexity points)") := by
  unfold tierFromComplexity
  split_ifs <;> first | rfl | omega

/-!
## Claims
-/

/-- Claim C5: every pipeline whose computed complexity score is strictly
below 10 and whose computed parallelism total is at most 1 is recommended
the lowest tier, SP2.  (Any positive parallelism total would force at
least 10 complexity points, so the hypotheses pin the total to 0.) -/
theorem c5_low_score_low_parallelism_lowest_tier (stages : List Json)
    (hscore : (analyzePipeline stages).complexity_score < 10)
    (hpar : (analyzePipeline stages).total_parallelism ≤ 1) :
    (analyzePipeline stages).recommended_tier = "SP2" := by
  have hs : complexityScore stages < 10 := hscore
  have hp : totalParallelism stages ≤ 1 := hpar
  have hp0 : totalParallelism stages = 0 := by
    have hnn := totalParallelism_nonneg stages
    by_contra hne
    have hpos : 0 < totalParallelism stages := lt_of_le_of_ne hnn (Ne.symm hne)
    have := complexityScore_ge_ten_of_totalPar_pos hpos
    omega
  have hct : complexityTier stages = "SP2" := by
    unfold complexityTier
    rw [tierFromComplexity_of_lt_ten hs]
  have hpt : parallelismTier stages = "SP2" := by
    unfold parallelismTier
    rw [hp0]
    decide
  show recommendedTier stages = "SP2"
  unfold recommendedTier
  rw [hct, hpt]
  decide

/-- Witness for C5 at the empty pipeline. -/
theorem c5_low_score_low_parallelism_lowest_tier_witness :
    (analyzePipeline []).complexity_score < 10 ∧
    (analyzePipeline []).total_parallelism ≤ 1 ∧
    (analyzePipeline []).recommended_tier = "SP2" :=
  ⟨by decide, by decide, c5_low_score_low_parallelism_lowest_tier [] (by decide) (by decide)⟩

/-- Claim C1 (counterexample): on the end-to-end scenario pipeline (source,
group, sort, merge with `parallelism: 9` inside `into`) the scorer does not
produce complexity score 70, and the complexity tier does not equal the
parallelism tier: the four-stage pipeline earns the `> 3` length bonus of
+5, giving 75, which maps to SP30 while parallelism 8 maps to SP10. -/
theorem c1_scenario_counterexample :
    (analyzePipeline scenarioPipeline).complexity_score ≠ 70 ∧
    (analyzePipeline scenarioPipeline).complexity_tier ≠
      (analyzePipeline scenarioPipeline).parallelism_tier := by decide

/-- Claim C1 (amended): the scenario pipeline scores complexity 75
(15 group + 10 sort + 45 parallelism + 5 length bonus for 4 > 3 stages),
total parallelism 8, connections count 2 (no bonus), complexity tier SP30,
parallelism tier SP10, final tier SP30, decided by the rule
`complexity_index ≥ parallelism_index` (complexity-driven). -/
theorem c1_scenario_amended :
    (analyzePipeline scenarioPipeline).complexity_score = 75 ∧
    (analyzePipeline scenarioPipeline).total_parallelism = 8 ∧
    (analyzePipeline scenarioPipeline).connections_count = 2 ∧
    (analyzePipeline scenarioPipeline).complexity_tier = "SP30" ∧
    (analyzePipeline scenarioPipeline).parallelism_tier = "SP10" ∧
    (analyzePipeline scenarioPipeline).recommended_tier = "SP30" ∧
    (analyzePipeline scenarioPipeline).primary_reason =
      "Complexity-driven: Complex pipeline (50+ complexity points)" := by decide

/-- Claim C9: expensive operators are detected by substring search over the
stage's serialized form: a stage whose only operator key is `$match`, with
the text `$group` occurring only inside a configuration string value, still
earns the grouping weight of 15 complexity points. -/
theorem c9_substring_operator_detection :
    pyHasKey matchWithGroupText "$group" = false ∧
    (analyzePipeline [matchWithGroupText]).complexity_score = 15 := by decide

/-- Claim C8: when the pipeline cannot be located (or its data is falsy) the
scorer returns the middle tier SP10 with an explanatory note, and when
loading or parsing raises, the catch-all returns SP10 with the error note;
the embedding is total, mirroring that no exception propagates. -/
theorem c8_missing_or_unparsable_defaults_sp10 :
    analyze_processor_complexity_detailed .notFound =
      .fallback "SP10" "Processor not found locally or in Atlas"
        "Default fallback for missing processor" ∧
    ∀ e : String, analyze_processor_complexity_detailed (.loadError e) =
      .fallback "SP10" e "Error occurred during analysis, using default tier" :=
  ⟨rfl, fun _ => rfl⟩

/-- Witness for C8 at a concrete parse-error message. -/
theorem c8_missing_or_unparsable_defaults_sp10_witness :
    analyze_processor_complexity_detailed (.loadError "Invalid JSON: line 1") =
      .fallback "SP10" "Invalid JSON: line 1"
        "Error occurred during analysis, using default tier" :=
  c8_missing_or_unparsable_defaults_sp10.2 "Invalid JSON: line 1"

/-- Claim C4: the trend classifier turns a positive relative change of
exactly +5% (second-half average 105 against first-half average 100) into
`"decreasing"`, because the source tests `abs < 5` then `> 5`, leaving the
`== 5` boundary to the decreasing branch — contradicting the spec's
"a positive change ≥5% is increasing". -/
theorem c4_trend_boundary_bug :
    _calculate_trend [100, 105] = "decreasing" := by
  norm_num [_calculate_trend]

/-- A successful scan implies the literal pattern occurs at some start
position. -/
theorem scanLitDigitsHitPos {pat : List Char} {cs ds : List Char}
    (h : scanLitDigits pat cs = some ds) :
    ∃ i, pat.isPrefixOf (cs.drop i) = true := by
  induction cs with
  | nil => simp [scanLitDigits] at h
  | cons c tl ih =>
      unfold scanLitDigits at h
      split at h
      next hpre =>
        split at h
        next =>
          obtain ⟨i, hi⟩ := ih h
          exact ⟨i + 1, by simpa using hi⟩
        next =>
          exact ⟨0, by simpa using hpre⟩
      next =>
        obtain ⟨i, hi⟩ := ih h
        exact ⟨i + 1, by simpa using hi⟩

/-- A non-empty pattern occurring at some drop position means the haystack
contains it. -/
theorem strContains_of_prefix_drop {s : String} {pat : List Char} (hne : pat ≠ [])
    {i : Nat} (h : pat.isPrefixOf (s.data.drop i) = true) :
    strContains s (String.mk pat) = true := by
  unfold strContains
  rw [List.any_eq_true]
  by_cases hle : i ≤ s.data.length
  · exact ⟨i, List.mem_range.mpr (by omega), by simpa using h⟩
  · exfalso
    have hdrop : s.data.drop i = [] := List.drop_eq_nil_of_le (by omega)
    rw [hdrop] at h
    cases pat with
    | nil => exact hne rfl
    | cons a l => simp [List.isPrefixOf] at h

/-- Contrapositive: a haystack not containing the (non-empty) literal makes
the scan fail. -/
theorem scanLitDigits_eq_none_of_not_contains {s : String} {pat : List Char} (hne : pat ≠ [])
    (h : strContains s (String.mk pat) = false) : scanLitDigits pat s.data = none := by
  cases hscan : scanLitDigits pat s.data with
  | none => rfl
  | some ds =>
      obtain ⟨i, hi⟩ := scanLitDigitsHitPos hscan
      have hc := strContains_of_prefix_drop hne hi
      rw [hc] at h
      cases h

/-- Claim C7: the tier-violation error parser yields exactly SP30 on the
minimum-tier phrase, and yields no suggestion on any input containing
neither the minimum-tier literal nor the requested-parallelism literal
(the embedding is total, mirroring the catch-all `except`). -/
theorem c7_error_parser_minimum_tier_and_no_match :
    _parse_tier_validation_error "Minimum tier for this workload: SP30 or larger"
      = some "SP30" ∧
    ∀ s : String, strContains s "Minimum tier for this workload: SP" = false →
      strContains s "Requested: " = false →
      _parse_tier_validation_error s = none := by
  constructor
  · decide
  · intro s h1 h2
    unfold _parse_tier_validation_error minTierPat requestedPat
    rw [scanLitDigits_eq_none_of_not_contains (by decide) h1,
        scanLitDigits_eq_none_of_not_contains (by decide) h2]

/-- Witness for C7 at a concrete unrecognizable input. -/
theorem c7_error_parser_minimum_tier_and_no_match_witness :
    _parse_tier_validation_error "processor failed to start" = none :=
  c7_error_parser_minimum_tier_and_no_match.2 "processor failed to start"
    (by decide) (by decide)

/-- Claim C2 (counterexample): a pipeline referencing source connection `X`
when the known connections are `{Y}` passes `validate_processor_file` with
`valid = True` and an empty error list; the unknown reference is reported
only as a warning naming `X`. -/
theorem c2_unknown_connection_counterexample :
    (validate_processor_file "proc" unknownConnProcessor ["Y"]).valid = true ∧
    (validate_processor_file "proc" unknownConnProcessor ["Y"]).errors = [] ∧
    "Unknown source connection: X" ∈
      (validate_processor_file "proc" unknownConnProcessor ["Y"]).warnings := by
  decide

/-- Claim C2 (amended): an unknown source-connection reference always yields
a warning naming the connection in the minimal validator (never an error,
and `valid` is untouched by connection checks), and always fails the strict
test-suite connection assertion. -/
theorem c2_unknown_connection_warning_and_strict_failure
    (filename : String) (processor : List (String × Json)) (stages : List Json)
    (st src : Json) (conn : String) (connections : List String)
    (hpipe : processor.lookup "pipeline" = some (.arr stages))
    (hst : st ∈ stages)
    (hsrc : jlookup st "$source" = some src)
    (hconn : jlookup src "connectionName" = some (.str conn))
    (hunknown : connections.contains conn = false) :
    s!"Unknown source connection: {conn}" ∈
      (validate_processor_file filename processor connections).warnings ∧
    test_source_connections_exist processor connections = false := by
  have hstages : pipelineStages processor = stages := by
    unfold pipelineStages
    rw [hpipe]
  constructor
  · show _ ∈ outputWarning (pipelineStages processor)
        ++ connectionWarnings connections (pipelineStages processor)
        ++ nameWarning filename processor
    refine List.mem_append.mpr (Or.inl (List.mem_append.mpr (Or.inr ?_)))
    rw [hstages]
    unfold connectionWarnings
    refine List.mem_flatMap.mpr ⟨st, hst, ?_⟩
    refine List.mem_append.mpr (Or.inl (List.mem_append.mpr (Or.inl ?_)))
    unfold sourceConnWarning
    simp only [hsrc, hconn]
    have hnotmem : conn ∉ connections := by simpa using hunknown
    simp [jsonInStrList, fmtPy, hnotmem]
  · unfold test_source_connections_exist
    rw [hstages]
    rw [Bool.eq_false_iff]
    intro hall
    rw [List.all_eq_true] at hall
    have hp := hall st hst
    simp only [hsrc, hconn] at hp
    rw [show jsonInStrList (.str conn) connections = connections.contains conn from rfl,
        hunknown] at hp
    cases hp

/-- Witness for C2 (amended) at the concrete unknown-connection processor. -/
theorem c2_unknown_connection_warning_and_strict_failure_witness :
    "Unknown source connection: X" ∈
      (validate_processor_file "proc" unknownConnProcessor ["Y"]).warnings ∧
    test_source_connections_exist unknownConnProcessor ["Y"] = false :=
  c2_unknown_connection_warning_and_strict_failure "proc" unknownConnProcessor
    [unknownSourceStage, knownMergeStage] unknownSourceStage
    (.obj [("connectionName", .str "X")]) "X" ["Y"]
    rfl (List.mem_cons_self _ _) rfl rfl rfl

/-- At most one latency advisory fires, determined by the `elif` chain. -/
theorem latencyRecs_cases (l : MetricStats) :
    latencyRecs l = [] ∨ latencyRecs l = [latencyDegradeMsg] ∨
      latencyRecs l = [highLatencyMsg] := by
  unfold latencyRecs
  split_ifs <;> simp

/-- At most one throughput advisory fires, determined by the `elif` chain. -/
theorem throughputRecs_cases (t : MetricStats) :
    throughputRecs t = [] ∨ throughputRecs t = [throughputDropMsg] ∨
      throughputRecs t = [lowThroughputMsg] := by
  unfold throughputRecs
  split_ifs <;> simp

/-- Claim C3 (counterexample): when the memory trend is "increasing" and the
max memory 2000 MB exceeds the 1000 MB ceiling, both memory advisory
conditions hold, yet only the leak-monitoring advisory is returned: the
upsizing advisory is absent because the source uses an `elif` chain. -/
theorem c3_memory_rules_counterexample :
    memIncreasingHigh.trend = "increasing" ∧ memIncreasingHigh.maxV > 1000 ∧
    memUpsizeMsg ∉ _generate_recommendations memIncreasingHigh benignLatency benignThroughput ∧
    _generate_recommendations memIncreasingHigh benignLatency benignThroughput
      = [memLeakMsg] := by
  refine ⟨rfl, by norm_num [memIncreasingHigh], ?_, ?_⟩ <;>
    (norm_num [_generate_recommendations, memoryRecs, latencyRecs, throughputRecs,
       memIncreasingHigh, benignLatency, benignThroughput]
     try decide)

/-- Claim C3 (amended): the three metric groups are evaluated independently
and appended in fixed order, but within a group only the first matching
rule of the `elif` chain fires: when both memory conditions hold only the
leak advisory appears; advisories of different groups do co-occur; and when
no rule fires the result is exactly the healthy advisory. -/
theorem c3_recommendation_rules_amended (m l t : MetricStats) :
    (m.trend = "increasing" → m.maxV > 1000 →
      memLeakMsg ∈ _generate_recommendations m l t ∧
      memUpsizeMsg ∉ _generate_recommendations m l t) ∧
    (m.trend = "increasing" → t.trend = "decreasing" →
      memLeakMsg ∈ _generate_recommendations m l t ∧
      throughputDropMsg ∈ _generate_recommendations m l t) ∧
    (m.trend ≠ "increasing" → ¬ m.maxV > 1000 → ¬ m.avgV < 100 →
     l.trend ≠ "increasing" → ¬ l.avgV > 50 →
     t.trend ≠ "decreasing" → ¬ t.avgV < 1 →
      _generate_recommendations m l t = [healthyMsg]) := by
  refine ⟨?_, ?_, ?_⟩
  · intro h1 _
    have hm : memoryRecs m = [memLeakMsg] := by
      unfold memoryRecs
      rw [if_pos h1]
    unfold _generate_recommendations
    rw [hm]
    rw [if_neg (by simp)]
    constructor
    · exact List.mem_append.mpr (Or.inl (List.mem_append.mpr (Or.inl (by simp))))
    · intro hmem
      rcases List.mem_append.mp hmem with h | h
      · rcases List.mem_append.mp h with h' | h'
        · simp [memUpsizeMsg, memLeakMsg] at h'
        · rcases latencyRecs_cases l with hc | hc | hc <;> rw [hc] at h' <;>
            simp [memUpsizeMsg, latencyDegradeMsg, highLatencyMsg] at h'
      · rcases throughputRecs_cases t with hc | hc | hc <;> rw [hc] at h <;>
          simp [memUpsizeMsg, throughputDropMsg, lowThroughputMsg] at h
  · intro h1 h2
    have hm : memoryRecs m = [memLeakMsg] := by
      unfold memoryRecs
      rw [if_pos h1]
    have ht : throughputRecs t = [throughputDropMsg] := by
      unfold throughputRecs
      rw [if_pos h2]
    unfold _generate_recommendations
    rw [hm, ht]
    rw [if_neg (by simp)]
    constructor
    · exact List.mem_append.mpr (Or.inl (List.mem_append.mpr (Or.inl (by simp))))
    · exact List.mem_append.mpr (Or.inr (by simp))
  · intro h1 h2 h3 h4 h5 h6 h7
    have hm : memoryRecs m = [] := by
      unfold memoryRecs
      rw [if_neg h1, if_neg h2, if_neg h3]
    have hl : latencyRecs l = [] := by
      unfold latencyRecs
      rw [if_neg h4, if_neg h5]
    have ht : throughputRecs t = [] := by
      unfold throughputRecs
      rw [if_neg h6, if_neg h7]
    unfold _generate_recommendations
    rw [hm, hl, ht]
    rfl

/-- Witness for C3 (amended): the healthy case at concrete benign stats. -/
theorem c3_recommendation_rules_amended_witness :
    _generate_recommendations benignMemory benignLatency benignThroughput = [healthyMsg] :=
  (c3_recommendation_rules_amended benignMemory benignLatency benignThroughput).2.2
    (by decide) (by norm_num [benignMemory]) (by norm_num [benignMemory])
    (by decide) (by norm_num [benignLatency])
    (by decide) (by norm_num [benignThroughput])

/-- Claim C6 (counterexample): with a 10 s sampling interval and 3 s of tick
processing time, the claimed sleep is `max 0 (10 - 3) = 7`, but the
continuous profiler sleeps the full 10 s, and so does the fixed-duration
profiler mid-run (duration 100 s, elapsed 13 s). -/
theorem c6_sleep_counterexample :
    continuousTickSleep 10 = 10 ∧ specClaimedTickSleep 10 3 = 7 ∧
    continuousTickSleep 10 ≠ specClaimedTickSleep 10 3 ∧
    profileTickSleep 100 13 10 = 10 := by
  refine ⟨rfl, ?_, ?_, ?_⟩ <;>
    norm_num [specClaimedTickSleep, continuousTickSleep, profileTickSleep]

/-- Claim C6 (amended): the sleep never depends on the tick's processing
time: the continuous profiler always sleeps the full interval, and the
fixed-duration profiler sleeps `max 0 (min interval remaining)`, where
`remaining = duration - elapsed` is the run time still left. -/
theorem c6_sleep_amended (duration elapsed interval : ℚ) (hpos : 0 < interval) :
    profileTickSleep duration elapsed interval
      = max 0 (min interval (duration - elapsed)) ∧
    continuousTickSleep interval = interval := by
  constructor
  · unfold profileTickSleep
    split_ifs with h1 h2
    · rw [min_eq_left (le_of_lt h1), max_eq_right (le_of_lt hpos)]
    · rw [min_eq_right (not_lt.mp h1), max_eq_right (le_of_lt h2)]
    · have h3 : duration - elapsed ≤ 0 := not_lt.mp h2
      rw [min_eq_right (le_trans h3 (le_of_lt hpos)), max_eq_left h3]
  · rfl

/-- Witness for C6 (amended) at interval 10, duration 100, elapsed 13. -/
theorem c6_sleep_amended_witness :
    (0 : ℚ) < 10 ∧
    (profileTickSleep 100 13 10 = max 0 (min 10 (100 - 13)) ∧
     continuousTickSleep 10 = 10) :=
  ⟨by norm_num, c6_sleep_amended 100 13 10 (by norm_num)⟩

/-- Claim C10: the end-of-run per-processor analysis has an entry for a name
only if that name produced an error-free sample in the first tick; in
particular a run whose first tick failed for `p` has no entry for `p` even
though every later tick succeeded. -/
theorem c10_first_tick_gates_analysis :
    (∀ (samples : List (List ProcEntry)) (name : String),
        name ∈ (_analyze_profile_data_processors samples).map Prod.fst →
        ∃ first rest m, samples = first :: rest ∧ ProcEntry.ok name m ∈ first) ∧
    _analyze_profile_data_processors errFirstRun = [] := by
  constructor
  · intro samples name hmem
    rcases List.mem_map.mp hmem with ⟨pair, hpair, hfst⟩
    rcases List.mem_filterMap.mp hpair with ⟨n, hn, heq⟩
    by_cases hpd : (samples.filterMap (fun tick => tickFind tick n)).isEmpty = true
    · rw [if_pos hpd] at heq
      cases heq
    · rw [if_neg hpd] at heq
      have hpairEq : pair = (n, _calculate_processor_stats
          (samples.filterMap (fun tick => tickFind tick n))) := by
        injection heq with h'
        exact h'.symm
      have hname : n = name := by
        rw [hpairEq] at hfst
        exact hfst
      subst hname
      cases samples with
      | nil => simp [firstTickOkNames] at hn
      | cons first rest =>
          unfold firstTickOkNames at hn
          rcases List.mem_filterMap.mp hn with ⟨e, he, hesome⟩
          cases e with
          | ok en m =>
              have hen : en = n := by simpa using hesome
              subst hen
              exact ⟨first, rest, m, rfl, he⟩
          | err a b => simp at hesome
  · rfl

/-- Witness for C10 at a run whose single tick succeeds for `p`. -/
theorem c10_first_tick_gates_analysis_witness :
    ∃ first rest m,
      ([[ProcEntry.ok "p" sampleMetrics]] : List (List ProcEntry)) = first :: rest ∧
      ProcEntry.ok "p" m ∈ first :=
  c10_first_tick_gates_analysis.1 [[.ok "p" sampleMetrics]] "p" (by decide)
